import Mathlib

/-!
Shallow embedding of the workflow iteration cycle manager
(api/core/app/task_pipeline/workflow_iteration_cycle_manage.py) and of the
tool transform service's icon-url resolver
(api/services/tools/tools_transform_service.py), together with theorems
settling the specification claims about them.
-/

/-- JSON values, modelling the Python dict/list payloads that the code
serializes with json.dumps / parses with json.loads. -/
inductive Json where
  | null : Json
  | bool : Bool → Json
  | num : Int → Json
  | str : String → Json
  | arr : List Json → Json
  | obj : List (String × Json) → Json

namespace UserToolProvider

/-- Modelled from the spec: the UserToolProvider.ProviderType enum is declared
outside the included sources; only its four distinct string values are used by
get_tool_provider_icon_url. -/
inductive ProviderType where
  | BUILTIN
  | MODEL
  | API
  | WORKFLOW

/-- The string carried by each ProviderType enum member. -/
def ProviderType.value : ProviderType → String
  | .BUILTIN => "builtin"
  | .MODEL => "model"
  | .API => "api"
  | .WORKFLOW => "workflow"

end UserToolProvider

/-- Result of get_tool_provider_icon_url: Python returns either a str
(the console URL, or the empty string) or the dict parsed from the icon. -/
inductive IconUrl where
  | plain : String → IconUrl
  | json : Json → IconUrl

/-- The fixed fallback icon dict returned when parsing the icon string fails. -/
def defaultToolIcon : Json :=
  Json.obj [("background", Json.str "#252525"), ("content", Json.str "😁")]

/-- ToolTransformService.get_tool_provider_icon_url.  The ambient Flask config
value CONSOLE_API_URL and Python's json.loads are passed in as parameters;
jsonLoads returns none exactly when json.loads would raise (the bare except
catches every parse error). -/
def get_tool_provider_icon_url (console_api_url : String)
    (jsonLoads : String → Option Json)
    (provider_type provider_name icon : String) : IconUrl :=
  let url_head := console_api_url ++ "/console/api/workspaces/current/tool-provider/"
  if provider_type = UserToolProvider.ProviderType.BUILTIN.value then
    .plain (url_head ++ "builtin/" ++ provider_name ++ "/icon")
  else if provider_type = UserToolProvider.ProviderType.MODEL.value then
    .plain (url_head ++ "model/" ++ provider_name ++ "/icon")
  else if provider_type = UserToolProvider.ProviderType.API.value ∨
      provider_type = UserToolProvider.ProviderType.WORKFLOW.value then
    match jsonLoads icon with
    | some j => .json j
    | none => .json defaultToolIcon
  else
    .plain ""

/-- C10: the tool-provider icon-url resolver is total on its string inputs and
never raises: for BUILTIN and MODEL it returns the concatenated console URL
string; for API and WORKFLOW it returns the icon string parsed as JSON, falling
back to the fixed default icon object whenever parsing fails; for any other
provider type it returns the empty string. -/
theorem C10_icon_url_total (console_api_url : String)
    (jsonLoads : String → Option Json) (provider_type provider_name icon : String) :
    (provider_type = "builtin" →
      get_tool_provider_icon_url console_api_url jsonLoads provider_type provider_name icon =
        .plain (console_api_url ++ "/console/api/workspaces/current/tool-provider/" ++
          "builtin/" ++ provider_name ++ "/icon")) ∧
    (provider_type = "model" →
      get_tool_provider_icon_url console_api_url jsonLoads provider_type provider_name icon =
        .plain (console_api_url ++ "/console/api/workspaces/current/tool-provider/" ++
          "model/" ++ provider_name ++ "/icon")) ∧
    (provider_type = "api" ∨ provider_type = "workflow" →
      get_tool_provider_icon_url console_api_url jsonLoads provider_type provider_name icon =
        (match jsonLoads icon with
         | some j => .json j
         | none => .json defaultToolIcon)) ∧
    (provider_type ≠ "builtin" → provider_type ≠ "model" → provider_type ≠ "api" →
      provider_type ≠ "workflow" →
      get_tool_provider_icon_url console_api_url jsonLoads provider_type provider_name icon =
        .plain "") := by
  refine ⟨?_, ?_, ?_, ?_⟩ <;> intro h
  · subst h; rfl
  · subst h; rfl
  · rcases h with h | h <;> subst h <;> rfl
  · intro h2 h3 h4
    simp only [get_tool_provider_icon_url, UserToolProvider.ProviderType.value,
      if_neg h, if_neg h2]
    rw [if_neg]
    exact not_or.mpr ⟨h3, h4⟩

/-- Witness for C10 at a concrete input: an API provider whose icon fails to
parse resolves to the default icon object. -/
theorem C10_icon_url_total_witness :
    get_tool_provider_icon_url "h" (fun _ => none) "api" "n" "bad" =
      .json defaultToolIcon := by
  have h := (C10_icon_url_total "h" (fun _ => none) "api" "n" "bad").2.2.1 (Or.inl rfl)
  exact h

/-! ### Data model of the iteration cycle manager -/

/-- WorkflowIterationState.Data: one in-flight iteration entry. -/
structure WorkflowIterationState.Data where
  parent_iteration_id : Option String
  iteration_id : String
  current_index : Int
  iteration_steps_boundary : List Int
  node_execution_id : Nat
  started_at : Nat

/-- WorkflowIterationState: the Iteration State Table, keyed by node id. -/
structure WorkflowIterationState where
  current_iterations : String → Option WorkflowIterationState.Data

/-- The fields of a WorkflowRun row read by this component. -/
structure WorkflowRun where
  id : String
  tenant_id : String
  app_id : String
  workflow_id : String
  created_by_role : String
  created_by : String

/-- Modelled from the spec: the status enum of models/workflow.py is declared
outside the included sources; only RUNNING and SUCCEEDED are written here. -/
inductive WorkflowNodeExecutionStatus where
  | RUNNING
  | SUCCEEDED
  | FAILED

/-- The string carried by each status enum member. -/
def WorkflowNodeExecutionStatus.value : WorkflowNodeExecutionStatus → String
  | .RUNNING => "running"
  | .SUCCEEDED => "succeeded"
  | .FAILED => "failed"

/-- Modelled from the spec: only the ITERATION member of NodeType is used. -/
inductive NodeType where
  | ITERATION

/-- The string carried by the NodeType enum member. -/
def NodeType.value : NodeType → String
  | .ITERATION => "iteration"

/-- Modelled from the spec: trigger source enum, only WORKFLOW_RUN is used. -/
inductive WorkflowNodeExecutionTriggeredFrom where
  | WORKFLOW_RUN

/-- The string carried by the trigger source enum member. -/
def WorkflowNodeExecutionTriggeredFrom.value : WorkflowNodeExecutionTriggeredFrom → String
  | .WORKFLOW_RUN => "workflow-run"

/-- A WorkflowNodeExecution row (the Execution Record). Timestamps are Nat
ticks of the monotonic clock; execution_metadata and outputs are the JSON
blobs produced by json.dumps. -/
structure WorkflowNodeExecution where
  id : Nat
  tenant_id : String
  app_id : String
  workflow_id : String
  triggered_from : String
  workflow_run_id : String
  predecessor_node_id : Option String
  index : Int
  node_id : String
  node_type : String
  title : String
  status : String
  created_by_role : String
  created_by : String
  execution_metadata : Json
  outputs : Option Json := none
  elapsed_time : Option Int := none

/-- QueueIterationStartEvent: the fields read by the manager. -/
structure QueueIterationStartEvent where
  node_id : String
  node_run_index : Int
  predecessor_node_id : Option String

/-- QueueIterationNextEvent: the fields read by the manager. -/
structure QueueIterationNextEvent where
  node_id : String
  index : Int
  node_run_index : Int
  output : Json

/-- QueueIterationCompletedEvent: the fields read by the manager. -/
structure QueueIterationCompletedEvent where
  node_id : String
  outputs : Json

/-- The tagged union of the three lifecycle event kinds. -/
inductive QueueIterationEvent where
  | start : QueueIterationStartEvent → QueueIterationEvent
  | next : QueueIterationNextEvent → QueueIterationEvent
  | completed : QueueIterationCompletedEvent → QueueIterationEvent

/-- NodeExecutionInfo: the lightweight task-state entry recorded on start. -/
structure NodeExecutionInfo where
  workflow_node_execution_id : Nat
  node_type : String
  start_at : Nat

/-- The slice of the shared task state read and written by this component. -/
structure WorkflowTaskState where
  workflow_run_id : String
  ran_node_execution_infos : String → Option NodeExecutionInfo
  latest_node_execution_info : Option NodeExecutionInfo

/-- The full state a WorkflowIterationCycleManage instance acts on:
its _iteration_state field (None before the first start event), the shared
task state, and the database session's WorkflowRun and WorkflowNodeExecution
tables (records are keyed by primary key; next_record_id models the
autoassigned key of the next insert). -/
structure ControllerState where
  iteration_state : Option WorkflowIterationState
  task_state : WorkflowTaskState
  runs : String → Option WorkflowRun
  records : Nat → Option WorkflowNodeExecution
  next_record_id : Nat

/-- Python-level failures surfaced by a handler call. -/
inductive PyError where
  | attributeError
  | storageError

/-- Which durable-store operations fail during a handler call (storage
failures are modelled by flags; a create or update with its flag set raises
storageError, leaving the durable table untouched). -/
structure StorageBehavior where
  create_fails : Bool
  update_fails : Bool

/-- The behavior in which every durable operation succeeds. -/
def reliableStore : StorageBehavior := ⟨false, false⟩

/-- True exactly when a handler call returned without raising. -/
def exceptOk {α : Type} : Except PyError α → Bool
  | .ok _ => true
  | .error _ => false

/-! ### The handlers -/

/-- WorkflowIterationCycleManage._init_iteration_state: builds an empty table
if _iteration_state is None; an already-built state object is truthy, so the
call is then a no-op. -/
def init_iteration_state (s : ControllerState) : ControllerState :=
  match s.iteration_state with
  | none => { s with iteration_state := some ⟨fun _ => none⟩ }
  | some _ => s

/-- Lookup through the optional table (none when the table is absent).
Used to state theorems; the handlers themselves branch on the option. -/
def lookupIteration (s : ControllerState) (k : String) :
    Option WorkflowIterationState.Data :=
  match s.iteration_state with
  | none => none
  | some st => st.current_iterations k

/-- True when an Iteration State entry for k exists. -/
def is_live (s : ControllerState) (k : String) : Bool :=
  (lookupIteration s k).isSome

/-- The execution-metadata blob written by json.dumps on create and on every
next event: always exactly these three fields. -/
def iterationMetadata (started_run_index current_index : Int)
    (steps_boundary : List Int) : Json :=
  Json.obj [("started_run_index", Json.num started_run_index),
            ("current_index", Json.num current_index),
            ("steps_boundary", Json.arr (steps_boundary.map Json.num))]

/-- WorkflowIterationCycleManage._init_iteration_execution_from_workflow_run:
the row built and inserted on a start event; record_id is the key the store
assigns at commit. -/
def init_iteration_execution_from_workflow_run (workflow_run : WorkflowRun)
    (node_id : String) (node_type : NodeType) (node_title : String)
    (node_run_index : Int) (predecessor_node_id : Option String)
    (record_id : Nat) : WorkflowNodeExecution :=
  { id := record_id
    tenant_id := workflow_run.tenant_id
    app_id := workflow_run.app_id
    workflow_id := workflow_run.workflow_id
    triggered_from := WorkflowNodeExecutionTriggeredFrom.WORKFLOW_RUN.value
    workflow_run_id := workflow_run.id
    predecessor_node_id := predecessor_node_id
    index := node_run_index
    node_id := node_id
    node_type := node_type.value
    title := node_title
    status := WorkflowNodeExecutionStatus.RUNNING.value
    created_by_role := workflow_run.created_by_role
    created_by := workflow_run.created_by
    execution_metadata := iterationMetadata (node_run_index + 1) 0 [] }

/-- WorkflowIterationCycleManage._handle_iteration_started.  now is the
monotonic clock reading during the call.  A missing workflow run raises
(attribute access on None inside the record builder); a failing create
raises storageError before any in-memory insert. -/
def handle_iteration_started (beh : StorageBehavior) (now : Nat)
    (event : QueueIterationStartEvent) (s0 : ControllerState) :
    ControllerState × Except PyError WorkflowNodeExecution :=
  let s := init_iteration_state s0
  match s.runs s.task_state.workflow_run_id with
  | none => (s, .error .attributeError)
  | some workflow_run =>
    if beh.create_fails then (s, .error .storageError)
    else
      let workflow_node_execution := init_iteration_execution_from_workflow_run
        workflow_run event.node_id NodeType.ITERATION event.node_id
        event.node_run_index event.predecessor_node_id s.next_record_id
      let records1 : Nat → Option WorkflowNodeExecution := fun i =>
        if i = s.next_record_id then some workflow_node_execution else s.records i
      let s1 : ControllerState :=
        { s with records := records1, next_record_id := s.next_record_id + 1 }
      let latest_node_execution_info : NodeExecutionInfo :=
        { workflow_node_execution_id := workflow_node_execution.id
          node_type := NodeType.ITERATION.value
          start_at := now }
      let infos1 : String → Option NodeExecutionInfo := fun k =>
        if k = event.node_id then some latest_node_execution_info
        else s1.task_state.ran_node_execution_infos k
      let s2 : ControllerState := { s1 with task_state :=
        { s1.task_state with
          ran_node_execution_infos := infos1
          latest_node_execution_info := some latest_node_execution_info } }
      let entry : WorkflowIterationState.Data :=
        { parent_iteration_id := none
          iteration_id := event.node_id
          current_index := 0
          iteration_steps_boundary := []
          node_execution_id := workflow_node_execution.id
          started_at := now }
      let table1 : String → Option WorkflowIterationState.Data := fun k =>
        if k = event.node_id then some entry else lookupIteration s2 k
      let s3 : ControllerState := { s2 with iteration_state := some ⟨table1⟩ }
      (s3, .ok workflow_node_execution)

/-- WorkflowIterationCycleManage._handle_iteration_next.  With
_iteration_state still None the membership test raises AttributeError; an
absent id is a plain return; otherwise the entry is mutated in place first,
then the record is fetched (a missing row raises on attribute access) and its
metadata blob is overwritten wholesale. -/
def handle_iteration_next (beh : StorageBehavior)
    (event : QueueIterationNextEvent) (s0 : ControllerState) :
    ControllerState × Except PyError Unit :=
  match s0.iteration_state with
  | none => (s0, .error .attributeError)
  | some st =>
    match st.current_iterations event.node_id with
    | none => (s0, .ok ())
    | some current_iteration0 =>
      let current_iteration : WorkflowIterationState.Data :=
        { current_iteration0 with
          current_index := event.index
          iteration_steps_boundary :=
            current_iteration0.iteration_steps_boundary ++ [event.node_run_index] }
      let table1 : String → Option WorkflowIterationState.Data := fun k =>
        if k = event.node_id then some current_iteration else st.current_iterations k
      let s1 : ControllerState := { s0 with iteration_state := some ⟨table1⟩ }
      match s1.records current_iteration.node_execution_id with
      | none => (s1, .error .attributeError)
      | some workflow_node_execution0 =>
        if beh.update_fails then (s1, .error .storageError)
        else
          let workflow_node_execution : WorkflowNodeExecution :=
            { workflow_node_execution0 with
              execution_metadata := iterationMetadata (event.node_run_index + 1)
                event.index current_iteration.iteration_steps_boundary }
          let records1 : Nat → Option WorkflowNodeExecution := fun i =>
            if i = current_iteration.node_execution_id then some workflow_node_execution
            else s1.records i
          ({ s1 with records := records1 }, .ok ())

/-- WorkflowIterationCycleManage._handle_iteration_completed.  Same None /
absent-id behavior as next handling; on a live entry the record is finalized
(status SUCCEEDED, outputs wrapped, elapsed time = now - started_at) and only
after the successful commit is the entry popped from the table. -/
def handle_iteration_completed (beh : StorageBehavior) (now : Nat)
    (event : QueueIterationCompletedEvent) (s0 : ControllerState) :
    ControllerState × Except PyError Unit :=
  match s0.iteration_state with
  | none => (s0, .error .attributeError)
  | some st =>
    match st.current_iterations event.node_id with
    | none => (s0, .ok ())
    | some current_iteration =>
      match s0.records current_iteration.node_execution_id with
      | none => (s0, .error .attributeError)
      | some workflow_node_execution0 =>
        if beh.update_fails then (s0, .error .storageError)
        else
          let workflow_node_execution : WorkflowNodeExecution :=
            { workflow_node_execution0 with
              status := WorkflowNodeExecutionStatus.SUCCEEDED.value
              outputs := some (Json.obj [("output", event.outputs)])
              elapsed_time := some ((now : Int) - (current_iteration.started_at : Int)) }
          let records1 : Nat → Option WorkflowNodeExecution := fun i =>
            if i = current_iteration.node_execution_id then some workflow_node_execution
            else s0.records i
          let s1 : ControllerState := { s0 with records := records1 }
          let table1 : String → Option WorkflowIterationState.Data := fun k =>
            if k = event.node_id then none else st.current_iterations k
          ({ s1 with iteration_state := some ⟨table1⟩ }, .ok ())

/-- WorkflowIterationCycleManage._handle_iteration_operation: dispatch on the
event kind. -/
def handle_iteration_operation (beh : StorageBehavior) (now : Nat)
    (event : QueueIterationEvent) (s : ControllerState) :
    ControllerState × Except PyError Unit :=
  match event with
  | .start e =>
    let r := handle_iteration_started beh now e s
    (r.1, r.2.map fun _ => ())
  | .next e => handle_iteration_next beh e s
  | .completed e => handle_iteration_completed beh now e s

/-! ### Stream responses and the translator -/

/-- The data payload of IterationNodeStartStreamResponse. -/
structure IterationNodeStartStreamResponse.Data where
  id : String
  node_id : String
  created_at : Nat
  extras : List (String × Json)

/-- IterationNodeStartStreamResponse. -/
structure IterationNodeStartStreamResponse where
  task_id : String
  workflow_run_id : String
  data : IterationNodeStartStreamResponse.Data

/-- The data payload of IterationNodeNextStreamResponse. -/
structure IterationNodeNextStreamResponse.Data where
  id : String
  node_id : String
  index : Int
  output : Json
  created_at : Nat
  extras : List (String × Json)

/-- IterationNodeNextStreamResponse. -/
structure IterationNodeNextStreamResponse where
  task_id : String
  workflow_run_id : String
  data : IterationNodeNextStreamResponse.Data

/-- The data payload of IterationNodeCompletedStreamResponse. -/
structure IterationNodeCompletedStreamResponse.Data where
  id : String
  node_id : String
  outputs : Json
  created_at : Nat
  extras : List (String × Json)

/-- IterationNodeCompletedStreamResponse. -/
structure IterationNodeCompletedStreamResponse where
  task_id : String
  workflow_run_id : String
  data : IterationNodeCompletedStreamResponse.Data

/-- The union of the three outward notification shapes. -/
inductive IterationStreamResponse where
  | start : IterationNodeStartStreamResponse → IterationStreamResponse
  | next : IterationNodeNextStreamResponse → IterationStreamResponse
  | completed : IterationNodeCompletedStreamResponse → IterationStreamResponse

/-- WorkflowIterationCycleManage._handle_iteration_to_stream_response.
now is the wall-clock reading of int(time.time()); the only state read is
self._task_state.workflow_run_id. -/
def handle_iteration_to_stream_response (s : ControllerState) (task_id : String)
    (now : Nat) (event : QueueIterationEvent) : IterationStreamResponse :=
  match event with
  | .start e =>
    .start { task_id := task_id
             workflow_run_id := s.task_state.workflow_run_id
             data := { id := e.node_id, node_id := e.node_id, created_at := now,
                       extras := [] } }
  | .next e =>
    .next { task_id := task_id
            workflow_run_id := s.task_state.workflow_run_id
            data := { id := e.node_id, node_id := e.node_id, index := e.index,
                      output := e.output, created_at := now, extras := [] } }
  | .completed e =>
    .completed { task_id := task_id
                 workflow_run_id := s.task_state.workflow_run_id
                 data := { id := e.node_id, node_id := e.node_id,
                           outputs := e.outputs, created_at := now, extras := [] } }

/-! ### Trace machinery -/

/-- The controller state of a freshly constructed pipeline for one workflow
run: _iteration_state is still None and no execution records exist. -/
def initialState (runs : String → Option WorkflowRun) (wrid : String) :
    ControllerState :=
  { iteration_state := none
    task_state := { workflow_run_id := wrid
                    ran_node_execution_infos := fun _ => none
                    latest_node_execution_info := none }
    runs := runs
    records := fun _ => none
    next_record_id := 0 }

/-- Fold a timestamped event list through the controller, keeping the state
(the surrounding pipeline feeds events one at a time). -/
def run_events (beh : StorageBehavior) :
    List (Nat × QueueIterationEvent) → ControllerState → ControllerState
  | [], s => s
  | te :: es, s =>
    run_events beh es (handle_iteration_operation beh te.1 te.2 s).1

/-- True when every handler call in the trace returns without raising. -/
def run_events_ok (beh : StorageBehavior) :
    List (Nat × QueueIterationEvent) → ControllerState → Bool
  | [], _ => true
  | te :: es, s =>
    exceptOk (handle_iteration_operation beh te.1 te.2 s).2 &&
      run_events_ok beh es (handle_iteration_operation beh te.1 te.2 s).1

/-- Spec-side history predicate for claim C1: how one event updates the
"started and not yet completed" flag of loop identifier X. -/
def relevantStep (X : String) (e : QueueIterationEvent) (b : Bool) : Bool :=
  match e with
  | .start ev => if ev.node_id = X then true else b
  | .next _ => b
  | .completed ev => if ev.node_id = X then false else b

/-- Spec-side history predicate for claim C1: a start event for X has been
processed and no completed event for X has been processed since. -/
def started_not_completed (es : List (Nat × QueueIterationEvent)) (X : String) :
    Bool :=
  es.foldl (fun b te => relevantStep X te.2 b) false

/-! ### Concrete states used by the witnesses -/

/-- A concrete in-flight iteration entry. -/
def wEntry : WorkflowIterationState.Data :=
  { parent_iteration_id := none
    iteration_id := "loop1"
    current_index := 0
    iteration_steps_boundary := []
    node_execution_id := 0
    started_at := 2 }

/-- A concrete workflow run row. -/
def wRun : WorkflowRun :=
  { id := "run1", tenant_id := "t1", app_id := "a1", workflow_id := "w1",
    created_by_role := "account", created_by := "u1" }

/-- A concrete run table holding wRun under its id. -/
def wRuns : String → Option WorkflowRun :=
  fun k => if k = "run1" then some wRun else none

/-- A concrete record matching wEntry's node_execution_id. -/
def wRecord : WorkflowNodeExecution :=
  init_iteration_execution_from_workflow_run wRun "loop1" NodeType.ITERATION
    "loop1" 1 none 0

/-- A concrete controller state with one live iteration and its record. -/
def wState : ControllerState :=
  { iteration_state := some ⟨fun k => if k = "loop1" then some wEntry else none⟩
    task_state := { workflow_run_id := "run1"
                    ran_node_execution_infos := fun _ => none
                    latest_node_execution_info := none }
    runs := wRuns
    records := fun i => if i = 0 then some wRecord else none
    next_record_id := 1 }

/-! ### Claim theorems: initialization, no-op policy, translator -/

/-- C9: initializing the Iteration State Table is idempotent: on a state
whose table is already built (here with at least one entry),
_init_iteration_state is a no-op that keeps every entry, and a second call
changes nothing either. -/
theorem C9_init_idempotent (s : ControllerState) (st : WorkflowIterationState)
    (X : String) (d : WorkflowIterationState.Data)
    (hst : s.iteration_state = some st)
    (hentry : st.current_iterations X = some d) :
    init_iteration_state (init_iteration_state s) = init_iteration_state s ∧
    init_iteration_state s = s ∧
    lookupIteration (init_iteration_state s) X = some d := by
  have h1 : init_iteration_state s = s := by
    unfold init_iteration_state
    rw [hst]
  refine ⟨by rw [h1]; exact h1, h1, ?_⟩
  rw [h1]
  unfold lookupIteration
  rw [hst]
  exact hentry

/-- Witness for C9 at a concrete state with one live entry. -/
theorem C9_init_idempotent_witness :
    init_iteration_state (init_iteration_state wState) = init_iteration_state wState ∧
    init_iteration_state wState = wState ∧
    lookupIteration (init_iteration_state wState) "loop1" = some wEntry :=
  C9_init_idempotent wState ⟨fun k => if k = "loop1" then some wEntry else none⟩
    "loop1" wEntry rfl rfl

/-- C2 (amended): once the Iteration State Table has been initialized,
handling a next or completed event for an identifier with no entry (never
started there, or already completed) returns without error, performs no
Execution Record creation or update, and leaves the whole controller state
unchanged.  (As stated the claim also covered the never-initialized
controller; there the handlers raise, see the counterexample.) -/
theorem C2_absent_id_noop (beh : StorageBehavior) (now : Nat)
    (s : ControllerState) (st : WorkflowIterationState) (X : String)
    (i r : Int) (o oc : Json)
    (hst : s.iteration_state = some st)
    (habs : st.current_iterations X = none) :
    handle_iteration_next beh ⟨X, i, r, o⟩ s = (s, .ok ()) ∧
    handle_iteration_completed beh now ⟨X, oc⟩ s = (s, .ok ()) := by
  constructor
  · simp [handle_iteration_next, hst, habs]
  · simp [handle_iteration_completed, hst, habs]

/-- Witness for C2 at a concrete initialized state and the unknown id
"loop99". -/
theorem C2_absent_id_noop_witness :
    handle_iteration_next reliableStore ⟨"loop99", 0, 1, Json.null⟩ wState =
      (wState, .ok ()) ∧
    handle_iteration_completed reliableStore 5 ⟨"loop99", Json.null⟩ wState =
      (wState, .ok ()) :=
  C2_absent_id_noop reliableStore 5 wState
    ⟨fun k => if k = "loop1" then some wEntry else none⟩
    "loop99" 0 1 Json.null Json.null rfl rfl

/-- Counterexample to C2 as stated: on a controller where no start event has
ever been processed (_iteration_state is still None), handling a next event
for an unknown identifier raises AttributeError instead of being a no-op. -/
theorem C2_absent_id_noop_counterexample :
    (handle_iteration_next reliableStore ⟨"loop99", 0, 1, Json.null⟩
      (initialState (fun _ => none) "run1")).2 =
      Except.error PyError.attributeError := rfl

/-- C8: the stream-response translator returns, for each of the three event
kinds, exactly the matching notification shape carrying the loop identifier,
the creation timestamp and the event-specific payload; it never raises, is a
pure function of its arguments (it returns no state), and does not read the
Iteration State Table: its output depends on the controller state only
through the task state's workflow_run_id. -/
theorem C8_stream_response (s s' : ControllerState) (task_id : String)
    (now : Nat) (event : QueueIterationEvent)
    (hsame : s'.task_state.workflow_run_id = s.task_state.workflow_run_id) :
    handle_iteration_to_stream_response s' task_id now event =
      handle_iteration_to_stream_response s task_id now event ∧
    (match event with
     | .start e => handle_iteration_to_stream_response s task_id now event =
         .start ⟨task_id, s.task_state.workflow_run_id, ⟨e.node_id, e.node_id, now, []⟩⟩
     | .next e => handle_iteration_to_stream_response s task_id now event =
         .next ⟨task_id, s.task_state.workflow_run_id,
           ⟨e.node_id, e.node_id, e.index, e.output, now, []⟩⟩
     | .completed e => handle_iteration_to_stream_response s task_id now event =
         .completed ⟨task_id, s.task_state.workflow_run_id,
           ⟨e.node_id, e.node_id, e.outputs, now, []⟩⟩) := by
  cases event <;> simp [handle_iteration_to_stream_response, hsame]

/-- Witness for C8: two concrete states sharing a workflow_run_id but with
different Iteration State Tables translate a start event identically, to the
start notification shape. -/
theorem C8_stream_response_witness :
    handle_iteration_to_stream_response wState "t" 7
        (.start ⟨"loop1", 1, none⟩) =
      handle_iteration_to_stream_response (initialState (fun _ => none) "run1") "t" 7
        (.start ⟨"loop1", 1, none⟩) ∧
    handle_iteration_to_stream_response (initialState (fun _ => none) "run1") "t" 7
        (.start ⟨"loop1", 1, none⟩) =
      .start ⟨"t", "run1", ⟨"loop1", "loop1", 7, []⟩⟩ :=
  C8_stream_response (initialState (fun _ => none) "run1") wState "t" 7
    (.start ⟨"loop1", 1, none⟩) rfl

/-! ### Helper lemmas about initialization -/

/-- Initialization never touches the run table. -/
theorem init_iteration_state_runs (s : ControllerState) :
    (init_iteration_state s).runs = s.runs := by
  unfold init_iteration_state; split <;> rfl

/-- Initialization never touches the task state. -/
theorem init_iteration_state_task_state (s : ControllerState) :
    (init_iteration_state s).task_state = s.task_state := by
  unfold init_iteration_state; split <;> rfl

/-- Initialization never touches the record store. -/
theorem init_iteration_state_records (s : ControllerState) :
    (init_iteration_state s).records = s.records := by
  unfold init_iteration_state; split <;> rfl

/-- Initialization never touches the next record key. -/
theorem init_iteration_state_next_record_id (s : ControllerState) :
    (init_iteration_state s).next_record_id = s.next_record_id := by
  unfold init_iteration_state; split <;> rfl

/-- Initialization never changes any table lookup. -/
theorem init_iteration_state_lookup (s : ControllerState) (k : String) :
    lookupIteration (init_iteration_state s) k = lookupIteration s k := by
  rcases hs : s.iteration_state with _ | st <;>
    simp [init_iteration_state, lookupIteration, hs]

/-- On an already-initialized state, initialization is the identity. -/
theorem init_iteration_state_of_some (s : ControllerState)
    (st : WorkflowIterationState) (hst : s.iteration_state = some st) :
    init_iteration_state s = s := by
  unfold init_iteration_state; rw [hst]

/-! ### Claim theorems: start, completion, duplicate start, failure paths -/

/-- C4: handling a completed event for a live loop identifier finalizes the
associated Execution Record — status SUCCEEDED, outputs wrapped as the
singleton object, elapsed time the monotonic delta now - started_at (hence
nonnegative) — and removes the identifier from the Iteration State Table. -/
theorem C4_completion_finalizes (beh : StorageBehavior) (now : Nat)
    (s : ControllerState) (st : WorkflowIterationState) (X : String)
    (d : WorkflowIterationState.Data) (rec : WorkflowNodeExecution) (O : Json)
    (hst : s.iteration_state = some st)
    (hd : st.current_iterations X = some d)
    (hrec : s.records d.node_execution_id = some rec)
    (hupd : beh.update_fails = false)
    (hmono : (d.started_at : Int) ≤ (now : Int)) :
    exceptOk (handle_iteration_completed beh now ⟨X, O⟩ s).2 = true ∧
    ∃ rec',
      (handle_iteration_completed beh now ⟨X, O⟩ s).1.records d.node_execution_id =
        some rec' ∧
      rec'.status = WorkflowNodeExecutionStatus.SUCCEEDED.value ∧
      rec'.outputs = some (Json.obj [("output", O)]) ∧
      rec'.elapsed_time = some ((now : Int) - (d.started_at : Int)) ∧
      (0 : Int) ≤ (now : Int) - (d.started_at : Int) ∧
      lookupIteration (handle_iteration_completed beh now ⟨X, O⟩ s).1 X = none := by
  simp only [handle_iteration_completed, hst, hd, hrec, hupd]
  refine ⟨rfl,
    { rec with status := WorkflowNodeExecutionStatus.SUCCEEDED.value
               outputs := some (Json.obj [("output", O)])
               elapsed_time := some ((now : Int) - (d.started_at : Int)) },
    ?_, rfl, rfl, rfl, by omega, ?_⟩
  · simp
  · simp [lookupIteration]

/-- Witness for C4 at the concrete live state wState. -/
theorem C4_completion_finalizes_witness :
    exceptOk (handle_iteration_completed reliableStore 5 ⟨"loop1", Json.null⟩ wState).2 = true ∧
    ∃ rec',
      (handle_iteration_completed reliableStore 5 ⟨"loop1", Json.null⟩ wState).1.records
          wEntry.node_execution_id = some rec' ∧
      rec'.status = WorkflowNodeExecutionStatus.SUCCEEDED.value ∧
      rec'.outputs = some (Json.obj [("output", Json.null)]) ∧
      rec'.elapsed_time = some ((5 : Int) - (wEntry.started_at : Int)) ∧
      (0 : Int) ≤ (5 : Int) - (wEntry.started_at : Int) ∧
      lookupIteration (handle_iteration_completed reliableStore 5 ⟨"loop1", Json.null⟩ wState).1
        "loop1" = none :=
  C4_completion_finalizes reliableStore 5 wState
    ⟨fun k => if k = "loop1" then some wEntry else none⟩
    "loop1" wEntry wRecord Json.null rfl rfl rfl rfl (by decide)

/-- C5: handling a start event creates a new Execution Record in RUNNING
status with metadata exactly (started_run_index = run_index + 1,
current_index = 0, steps_boundary = []), attributed to the resolved run's
tenant, app and creator, and inserts an Iteration State entry with
current_index 0, an empty boundary and node_execution_id equal to the new
record's identifier. -/
theorem C5_start_creates (beh : StorageBehavior) (now : Nat)
    (e : QueueIterationStartEvent) (s0 : ControllerState) (wr : WorkflowRun)
    (hrun : s0.runs s0.task_state.workflow_run_id = some wr)
    (hcreate : beh.create_fails = false) :
    ∃ rec, (handle_iteration_started beh now e s0).2 = .ok rec ∧
      rec.status = WorkflowNodeExecutionStatus.RUNNING.value ∧
      rec.execution_metadata = iterationMetadata (e.node_run_index + 1) 0 [] ∧
      rec.tenant_id = wr.tenant_id ∧ rec.app_id = wr.app_id ∧
      rec.created_by_role = wr.created_by_role ∧ rec.created_by = wr.created_by ∧
      rec.id = s0.next_record_id ∧
      (handle_iteration_started beh now e s0).1.records rec.id = some rec ∧
      lookupIteration (handle_iteration_started beh now e s0).1 e.node_id =
        some { parent_iteration_id := none
               iteration_id := e.node_id
               current_index := 0
               iteration_steps_boundary := []
               node_execution_id := rec.id
               started_at := now } := by
  have hr : (init_iteration_state s0).runs
      (init_iteration_state s0).task_state.workflow_run_id = some wr := by
    rw [init_iteration_state_runs, init_iteration_state_task_state]; exact hrun
  simp only [handle_iteration_started, hr, hcreate]
  refine ⟨_, rfl, rfl, rfl, rfl, rfl, rfl, rfl, ?_, ?_, ?_⟩
  · simp [init_iteration_execution_from_workflow_run,
      init_iteration_state_next_record_id]
  · simp [init_iteration_execution_from_workflow_run,
      init_iteration_state_next_record_id, lookupIteration]
  · simp [lookupIteration, init_iteration_execution_from_workflow_run,
      init_iteration_state_next_record_id]

/-- Witness for C5: a start event on the fresh controller state. -/
theorem C5_start_creates_witness :
    ∃ rec, (handle_iteration_started reliableStore 2
        ⟨"loop1", 1, none⟩ (initialState wRuns "run1")).2 = .ok rec ∧
      rec.status = WorkflowNodeExecutionStatus.RUNNING.value ∧
      rec.execution_metadata = iterationMetadata ((1 : Int) + 1) 0 [] ∧
      rec.tenant_id = wRun.tenant_id ∧ rec.app_id = wRun.app_id ∧
      rec.created_by_role = wRun.created_by_role ∧ rec.created_by = wRun.created_by ∧
      rec.id = (initialState wRuns "run1").next_record_id ∧
      (handle_iteration_started reliableStore 2 ⟨"loop1", 1, none⟩
        (initialState wRuns "run1")).1.records rec.id = some rec ∧
      lookupIteration (handle_iteration_started reliableStore 2 ⟨"loop1", 1, none⟩
        (initialState wRuns "run1")).1 "loop1" =
        some { parent_iteration_id := none
               iteration_id := "loop1"
               current_index := 0
               iteration_steps_boundary := []
               node_execution_id := rec.id
               started_at := 2 } :=
  C5_start_creates reliableStore 2 ⟨"loop1", 1, none⟩ (initialState wRuns "run1")
    wRun rfl rfl

/-- C6: a start event is always accepted, with no existence check: on a state
where the identifier is already live, it creates a second Execution Record
(under a fresh key, leaving the first record in place) and overwrites the
Iteration State entry, resetting current_index to 0 and the boundary to
empty. -/
theorem C6_duplicate_start (beh : StorageBehavior) (now : Nat)
    (e : QueueIterationStartEvent) (s : ControllerState)
    (st : WorkflowIterationState) (d : WorkflowIterationState.Data)
    (oldrec : WorkflowNodeExecution) (wr : WorkflowRun)
    (hst : s.iteration_state = some st)
    (hd : st.current_iterations e.node_id = some d)
    (hold : s.records d.node_execution_id = some oldrec)
    (hfresh : s.records s.next_record_id = none)
    (hrun : s.runs s.task_state.workflow_run_id = some wr)
    (hcreate : beh.create_fails = false) :
    ∃ rec, (handle_iteration_started beh now e s).2 = .ok rec ∧
      rec.id ≠ d.node_execution_id ∧
      (handle_iteration_started beh now e s).1.records d.node_execution_id =
        some oldrec ∧
      (handle_iteration_started beh now e s).1.records rec.id = some rec ∧
      lookupIteration (handle_iteration_started beh now e s).1 e.node_id =
        some { parent_iteration_id := none
               iteration_id := e.node_id
               current_index := 0
               iteration_steps_boundary := []
               node_execution_id := rec.id
               started_at := now } := by
  have hne : s.next_record_id ≠ d.node_execution_id := by
    intro h; rw [h, hold] at hfresh; exact Option.noConfusion hfresh
  have hinit : init_iteration_state s = s := init_iteration_state_of_some s st hst
  simp only [handle_iteration_started, hinit, hrun, hcreate]
  refine ⟨_, rfl, ?_, ?_, ?_, ?_⟩
  · simp [init_iteration_execution_from_workflow_run]; exact hne
  · simp [init_iteration_execution_from_workflow_run, hne, hold]
    intro h; exact absurd h (Ne.symm hne)
  · simp [init_iteration_execution_from_workflow_run]
  · simp [lookupIteration, init_iteration_execution_from_workflow_run]

/-- Witness for C6: a duplicate start for the already-live id "loop1". -/
theorem C6_duplicate_start_witness :
    ∃ rec, (handle_iteration_started reliableStore 9 ⟨"loop1", 4, none⟩ wState).2 =
        .ok rec ∧
      rec.id ≠ wEntry.node_execution_id ∧
      (handle_iteration_started reliableStore 9 ⟨"loop1", 4, none⟩ wState).1.records
        wEntry.node_execution_id = some wRecord ∧
      (handle_iteration_started reliableStore 9 ⟨"loop1", 4, none⟩ wState).1.records
        rec.id = some rec ∧
      lookupIteration (handle_iteration_started reliableStore 9 ⟨"loop1", 4, none⟩
          wState).1 "loop1" =
        some { parent_iteration_id := none
               iteration_id := "loop1"
               current_index := 0
               iteration_steps_boundary := []
               node_execution_id := rec.id
               started_at := 9 } :=
  C6_duplicate_start reliableStore 9 ⟨"loop1", 4, none⟩ wState
    ⟨fun k => if k = "loop1" then some wEntry else none⟩ wEntry wRecord wRun
    rfl rfl rfl rfl rfl rfl

/-- C7: storage failures leave no partial in-memory state: a failing create
during start handling raises and leaves every Iteration State lookup exactly
as before, and a failing update during completed handling of a live entry
raises and leaves the whole controller state (in particular the entry)
untouched, preserving the existence invariant on every error path. -/
theorem C7_failure_atomicity (now : Nat) (s : ControllerState)
    (st : WorkflowIterationState) (d : WorkflowIterationState.Data)
    (e : QueueIterationStartEvent) (ec : QueueIterationCompletedEvent)
    (beh beh' : StorageBehavior)
    (hcf : beh.create_fails = true) (huf : beh'.update_fails = true)
    (hst : s.iteration_state = some st)
    (hd : st.current_iterations ec.node_id = some d) :
    (exceptOk (handle_iteration_started beh now e s).2 = false ∧
      ∀ k, lookupIteration (handle_iteration_started beh now e s).1 k =
        lookupIteration s k) ∧
    (exceptOk (handle_iteration_completed beh' now ec s).2 = false ∧
      (handle_iteration_completed beh' now ec s).1 = s) := by
  have hinit : init_iteration_state s = s := init_iteration_state_of_some s st hst
  constructor
  · rcases hrs : s.runs s.task_state.workflow_run_id with _ | wr
    · simp [handle_iteration_started, hinit, hrs, exceptOk]
    · simp [handle_iteration_started, hinit, hrs, hcf, exceptOk]
  · rcases hrec : s.records d.node_execution_id with _ | r
    · simp [handle_iteration_completed, hst, hd, hrec, exceptOk]
    · simp [handle_iteration_completed, hst, hd, hrec, huf, exceptOk]

/-- Witness for C7: failing create / failing update on the concrete live
state wState. -/
theorem C7_failure_atomicity_witness :
    (exceptOk (handle_iteration_started ⟨true, false⟩ 9 ⟨"loop1", 4, none⟩ wState).2 = false ∧
      lookupIteration (handle_iteration_started ⟨true, false⟩ 9
          ⟨"loop1", 4, none⟩ wState).1 "loop1" = lookupIteration wState "loop1") ∧
    (exceptOk (handle_iteration_completed ⟨false, true⟩ 9 ⟨"loop1", Json.null⟩ wState).2 = false ∧
      (handle_iteration_completed ⟨false, true⟩ 9 ⟨"loop1", Json.null⟩ wState).1 = wState) :=
  have h := C7_failure_atomicity 9 wState
    ⟨fun k => if k = "loop1" then some wEntry else none⟩ wEntry
    ⟨"loop1", 4, none⟩ ⟨"loop1", Json.null⟩ ⟨true, false⟩ ⟨false, true⟩
    rfl rfl rfl rfl
  ⟨⟨h.1.1, h.1.2 "loop1"⟩, h.2⟩

/-! ### Boundary accumulation (claim C3) -/

/-- Fold a list of next events for loop X (pairs of pass index and run-index)
through the controller, keeping the state. -/
def run_next_events (beh : StorageBehavior) (X : String) :
    List (Int × Int) → ControllerState → ControllerState
  | [], s => s
  | p :: ps, s =>
    run_next_events beh X ps (handle_iteration_next beh ⟨X, p.1, p.2, Json.null⟩ s).1

/-- The in-place mutation of a live entry performed by a next event with pass
index i and run-index r. -/
def nextEntry (d : WorkflowIterationState.Data) (i r : Int) :
    WorkflowIterationState.Data :=
  { d with
    current_index := i
    iteration_steps_boundary := d.iteration_steps_boundary ++ [r] }

/-- The record after a next event's wholesale metadata overwrite. -/
def nextRecord (rec : WorkflowNodeExecution) (i r : Int)
    (boundary : List Int) : WorkflowNodeExecution :=
  { rec with execution_metadata := iterationMetadata (r + 1) i boundary }

/-- The controller state produced by a next event on a live entry d of table
st whose record rec exists. -/
def nextState (s : ControllerState) (st : WorkflowIterationState) (X : String)
    (d : WorkflowIterationState.Data) (rec : WorkflowNodeExecution)
    (i r : Int) : ControllerState :=
  let table1 : String → Option WorkflowIterationState.Data := fun k =>
    if k = X then some (nextEntry d i r) else st.current_iterations k
  let records1 : Nat → Option WorkflowNodeExecution := fun j =>
    if j = d.node_execution_id then
      some (nextRecord rec i r (d.iteration_steps_boundary ++ [r]))
    else s.records j
  { s with iteration_state := some ⟨table1⟩, records := records1 }

/-- One next event on a live entry whose record exists: the entry is updated
in place and the record's metadata blob is overwritten wholesale. -/
theorem handle_iteration_next_live (beh : StorageBehavior) (X : String)
    (i r : Int) (o : Json) (s : ControllerState) (st : WorkflowIterationState)
    (d : WorkflowIterationState.Data) (rec : WorkflowNodeExecution)
    (hst : s.iteration_state = some st) (hd : st.current_iterations X = some d)
    (hrec : s.records d.node_execution_id = some rec)
    (hupd : beh.update_fails = false) :
    handle_iteration_next beh ⟨X, i, r, o⟩ s = (nextState s st X d rec i r, .ok ()) := by
  simp only [handle_iteration_next, hst, hd, hrec, hupd]
  rfl

/-- Running a block of next events ending in (i, r) on a live entry with an
existing record accumulates exactly the run-indices onto the boundary, in
order, and leaves the record's metadata equal to the blob written by the last
event. -/
theorem run_next_events_acc (X : String) (ps : List (Int × Int)) (i r : Int) :
    ∀ (s : ControllerState) (st : WorkflowIterationState)
      (d : WorkflowIterationState.Data) (rec : WorkflowNodeExecution),
      s.iteration_state = some st →
      st.current_iterations X = some d →
      s.records d.node_execution_id = some rec →
      ∃ st' d' rec',
        (run_next_events reliableStore X (ps ++ [(i, r)]) s).iteration_state =
          some st' ∧
        st'.current_iterations X = some d' ∧
        d'.node_execution_id = d.node_execution_id ∧
        d'.current_index = i ∧
        d'.iteration_steps_boundary =
          d.iteration_steps_boundary ++ (ps ++ [(i, r)]).map Prod.snd ∧
        (run_next_events reliableStore X (ps ++ [(i, r)]) s).records
          d.node_execution_id = some rec' ∧
        rec'.execution_metadata = iterationMetadata (r + 1) i
          (d.iteration_steps_boundary ++ (ps ++ [(i, r)]).map Prod.snd) := by
  induction ps with
  | nil =>
    intro s st d rec hst hd hrec
    have hstep := handle_iteration_next_live reliableStore X i r Json.null
      s st d rec hst hd hrec rfl
    rw [List.nil_append]
    refine ⟨⟨fun k => if k = X then some (nextEntry d i r)
        else st.current_iterations k⟩,
      nextEntry d i r, nextRecord rec i r (d.iteration_steps_boundary ++ [r]),
      ?_, ?_, ?_, ?_, ?_, ?_, ?_⟩ <;>
      simp [run_next_events, hstep, nextState, nextEntry, nextRecord]
  | cons p ps ih =>
    intro s st d rec hst hd hrec
    have hstep := handle_iteration_next_live reliableStore X p.1 p.2 Json.null
      s st d rec hst hd hrec rfl
    obtain ⟨st', d', rec', h1, h2, h3, h4, h5, h6, h7⟩ :=
      ih (nextState s st X d rec p.1 p.2)
        ⟨fun k => if k = X then some (nextEntry d p.1 p.2)
          else st.current_iterations k⟩
        (nextEntry d p.1 p.2)
        (nextRecord rec p.1 p.2 (d.iteration_steps_boundary ++ [p.2]))
        rfl (by simp) (by simp [nextState, nextEntry])
    rw [List.cons_append]
    simp only [run_next_events, hstep]
    refine ⟨st', d', rec', h1, h2, ?_, h4, ?_, ?_, ?_⟩
    · exact h3
    · rw [h5]; simp [nextEntry]
    · exact h6
    · rw [h7]; simp [nextEntry]

/-- The controller state produced by a successful start event (run resolved
to wr, create succeeded, clock reading now). -/
def startedState (s0 : ControllerState) (e : QueueIterationStartEvent)
    (wr : WorkflowRun) (now : Nat) : ControllerState :=
  let workflow_node_execution := init_iteration_execution_from_workflow_run
    wr e.node_id NodeType.ITERATION e.node_id e.node_run_index
    e.predecessor_node_id s0.next_record_id
  let records1 : Nat → Option WorkflowNodeExecution := fun i =>
    if i = s0.next_record_id then some workflow_node_execution else s0.records i
  let latest_node_execution_info : NodeExecutionInfo :=
    { workflow_node_execution_id := workflow_node_execution.id
      node_type := NodeType.ITERATION.value
      start_at := now }
  let infos1 : String → Option NodeExecutionInfo := fun k =>
    if k = e.node_id then some latest_node_execution_info
    else s0.task_state.ran_node_execution_infos k
  let entry : WorkflowIterationState.Data :=
    { parent_iteration_id := none
      iteration_id := e.node_id
      current_index := 0
      iteration_steps_boundary := []
      node_execution_id := workflow_node_execution.id
      started_at := now }
  let table1 : String → Option WorkflowIterationState.Data := fun k =>
    if k = e.node_id then some entry else lookupIteration s0 k
  { iteration_state := some ⟨table1⟩
    task_state := { workflow_run_id := s0.task_state.workflow_run_id
                    ran_node_execution_infos := infos1
                    latest_node_execution_info := some latest_node_execution_info }
    runs := s0.runs
    records := records1
    next_record_id := s0.next_record_id + 1 }

/-- A successful start call returns the created record and moves the
controller to startedState. -/
theorem handle_iteration_started_ok (beh : StorageBehavior) (now : Nat)
    (e : QueueIterationStartEvent) (s0 : ControllerState) (wr : WorkflowRun)
    (hrun : s0.runs s0.task_state.workflow_run_id = some wr)
    (hcreate : beh.create_fails = false) :
    handle_iteration_started beh now e s0 =
      (startedState s0 e wr now,
       .ok (init_iteration_execution_from_workflow_run wr e.node_id
         NodeType.ITERATION e.node_id e.node_run_index e.predecessor_node_id
         s0.next_record_id)) := by
  rcases hs : s0.iteration_state with _ | st <;>
    simp only [handle_iteration_started, startedState, init_iteration_state,
      lookupIteration, hs, hrun, hcreate] <;>
    simp

/-- C3: starting a loop and then feeding it N next events (the last carrying
pass index i and run-index r) leaves the in-memory iteration_steps_boundary
of length N, equal to the sequence of run-indices passed in, in order, and
the record's metadata blob exactly equal to (started_run_index = r + 1,
current_index = i, steps_boundary = the full accumulated sequence), with no
other fields surviving from any prior write. -/
theorem C3_boundary_accumulates (runs : String → Option WorkflowRun)
    (wrid : String) (wr : WorkflowRun) (now0 : Nat)
    (e : QueueIterationStartEvent) (ps : List (Int × Int)) (i r : Int)
    (hrun : runs wrid = some wr) :
    ∃ st d rec,
      (run_next_events reliableStore e.node_id (ps ++ [(i, r)])
        (handle_iteration_started reliableStore now0 e
          (initialState runs wrid)).1).iteration_state = some st ∧
      st.current_iterations e.node_id = some d ∧
      d.current_index = i ∧
      d.iteration_steps_boundary = (ps ++ [(i, r)]).map Prod.snd ∧
      d.iteration_steps_boundary.length = ps.length + 1 ∧
      (run_next_events reliableStore e.node_id (ps ++ [(i, r)])
        (handle_iteration_started reliableStore now0 e
          (initialState runs wrid)).1).records d.node_execution_id = some rec ∧
      rec.execution_metadata = iterationMetadata (r + 1) i
        ((ps ++ [(i, r)]).map Prod.snd) := by
  have hrun0 : (initialState runs wrid).runs
      (initialState runs wrid).task_state.workflow_run_id = some wr := hrun
  rw [handle_iteration_started_ok reliableStore now0 e (initialState runs wrid)
    wr hrun0 rfl]
  obtain ⟨st', d', rec', h1, h2, h3, h4, h5, h6, h7⟩ :=
    run_next_events_acc e.node_id ps i r
      (startedState (initialState runs wrid) e wr now0)
      ⟨fun k => if k = e.node_id then
        some { parent_iteration_id := none
               iteration_id := e.node_id
               current_index := 0
               iteration_steps_boundary := []
               node_execution_id := (initialState runs wrid).next_record_id
               started_at := now0 }
        else lookupIteration (initialState runs wrid) k⟩
      { parent_iteration_id := none
        iteration_id := e.node_id
        current_index := 0
        iteration_steps_boundary := []
        node_execution_id := (initialState runs wrid).next_record_id
        started_at := now0 }
      (init_iteration_execution_from_workflow_run wr e.node_id
        NodeType.ITERATION e.node_id e.node_run_index e.predecessor_node_id
        (initialState runs wrid).next_record_id)
      rfl (by simp) (by simp [startedState, init_iteration_execution_from_workflow_run])
  refine ⟨st', d', rec', h1, h2, h4, ?_, ?_, ?_, ?_⟩
  · rw [h5]; simp
  · rw [h5]; simp
  · rw [h3]; exact h6
  · rw [h7]; simp

/-- Witness for C3: the spec's Scenario B/C — start with run_index 1, then
next events (0, 3) and (1, 5). -/
theorem C3_boundary_accumulates_witness :
    ∃ st d rec,
      (run_next_events reliableStore "loop1" ([(0, 3)] ++ [(1, 5)])
        (handle_iteration_started reliableStore 2 ⟨"loop1", 1, none⟩
          (initialState wRuns "run1")).1).iteration_state = some st ∧
      st.current_iterations "loop1" = some d ∧
      d.current_index = 1 ∧
      d.iteration_steps_boundary = ([((0 : Int), (3 : Int))] ++ [(1, 5)]).map Prod.snd ∧
      d.iteration_steps_boundary.length = [((0 : Int), (3 : Int))].length + 1 ∧
      (run_next_events reliableStore "loop1" ([(0, 3)] ++ [(1, 5)])
        (handle_iteration_started reliableStore 2 ⟨"loop1", 1, none⟩
          (initialState wRuns "run1")).1).records d.node_execution_id = some rec ∧
      rec.execution_metadata = iterationMetadata ((5 : Int) + 1) 1
        (([((0 : Int), (3 : Int))] ++ [(1, 5)]).map Prod.snd) :=
  C3_boundary_accumulates wRuns "run1" wRun 2 ⟨"loop1", 1, none⟩ [(0, 3)] 1 5 rfl

/-! ### The existence invariant (claim C1) -/

/-- One successful handler call changes the liveness of identifier X exactly
as the spec-side relevantStep flag update prescribes. -/
theorem is_live_step (beh : StorageBehavior) (now : Nat)
    (e : QueueIterationEvent) (s : ControllerState) (X : String)
    (hok : exceptOk (handle_iteration_operation beh now e s).2 = true) :
    is_live (handle_iteration_operation beh now e s).1 X =
      relevantStep X e (is_live s X) := by
  cases e with
  | start ev =>
    rcases hrs : s.runs s.task_state.workflow_run_id with _ | wr
    · exfalso
      rcases hs : s.iteration_state with _ | st <;>
        simp [handle_iteration_operation, handle_iteration_started,
          init_iteration_state, hs, hrs, exceptOk, Except.map] at hok
    · rcases hcf : beh.create_fails with _ | _
      · have hh := handle_iteration_started_ok beh now ev s wr hrs hcf
        simp only [handle_iteration_operation, hh]
        simp only [is_live, lookupIteration, startedState, relevantStep]
        by_cases hx : ev.node_id = X
        · subst hx; simp
        · simp [hx, Ne.symm hx]
      · exfalso
        rcases hs : s.iteration_state with _ | st <;>
          simp [handle_iteration_operation, handle_iteration_started,
            init_iteration_state, hs, hrs, hcf, exceptOk, Except.map] at hok
  | next ev =>
    cases ev with
    | mk nid ii rr oo =>
      rcases hs : s.iteration_state with _ | st
      · exfalso
        simp [handle_iteration_operation, handle_iteration_next, hs,
          exceptOk] at hok
      · rcases hd : st.current_iterations nid with _ | d
        · simp [handle_iteration_operation, handle_iteration_next, hs, hd,
            relevantStep]
        · rcases hrec : s.records d.node_execution_id with _ | rec
          · exfalso
            simp [handle_iteration_operation, handle_iteration_next, hs, hd,
              hrec, exceptOk] at hok
          · rcases hup : beh.update_fails with _ | _
            · have hh := handle_iteration_next_live beh nid ii rr oo s st d rec
                hs hd hrec hup
              simp only [handle_iteration_operation, hh]
              simp only [is_live, lookupIteration, nextState, relevantStep, hs]
              by_cases hx : X = nid
              · subst hx; simp [hd]
              · simp [hx]
            · exfalso
              simp [handle_iteration_operation, handle_iteration_next, hs, hd,
                hrec, hup, exceptOk] at hok
  | completed ev =>
    cases ev with
    | mk nid oo =>
      rcases hs : s.iteration_state with _ | st
      · exfalso
        simp [handle_iteration_operation, handle_iteration_completed, hs,
          exceptOk] at hok
      · rcases hd : st.current_iterations nid with _ | d
        · simp only [handle_iteration_operation, handle_iteration_completed,
            hs, hd, relevantStep, is_live, lookupIteration]
          by_cases hx : nid = X
          · subst hx; simp [hd]
          · simp [hx]
        · rcases hrec : s.records d.node_execution_id with _ | rec
          · exfalso
            simp [handle_iteration_operation, handle_iteration_completed, hs,
              hd, hrec, exceptOk] at hok
          · rcases hup : beh.update_fails with _ | _
            · simp only [handle_iteration_operation, handle_iteration_completed,
                hs, hd, hrec, hup, Bool.false_eq_true, if_false,
                relevantStep, is_live, lookupIteration]
              by_cases hx : nid = X
              · subst hx; simp
              · simp [hx, Ne.symm hx, hs]
            · exfalso
              simp [handle_iteration_operation, handle_iteration_completed,
                hs, hd, hrec, hup, exceptOk] at hok

/-- Over a trace in which every handler call succeeded, the liveness of X in
the final state is the fold of the spec-side flag updates. -/
theorem run_events_live (beh : StorageBehavior)
    (es : List (Nat × QueueIterationEvent)) :
    ∀ (s : ControllerState) (X : String),
      run_events_ok beh es s = true →
      is_live (run_events beh es s) X =
        es.foldl (fun b te => relevantStep X te.2 b) (is_live s X) := by
  induction es with
  | nil => intro s X _; rfl
  | cons te es ih =>
    intro s X hok
    simp only [run_events_ok, Bool.and_eq_true] at hok
    simp only [run_events, List.foldl_cons]
    rw [ih _ X hok.2, is_live_step beh te.1 te.2 s X hok.1]

/-- C1: over any trace of lifecycle events, each handled successfully from a
fresh controller, an Iteration State entry for X exists in the final state
iff a start event for X has been processed with no completed event for X
successfully handled since; and on any single successful step, a live entry
disappears only through a completed event for exactly that identifier. -/
theorem C1_entry_invariant (runs : String → Option WorkflowRun) (wrid : String)
    (es : List (Nat × QueueIterationEvent)) (X : String)
    (hok : run_events_ok reliableStore es (initialState runs wrid) = true) :
    (is_live (run_events reliableStore es (initialState runs wrid)) X = true ↔
      started_not_completed es X = true) ∧
    (∀ (beh : StorageBehavior) (now : Nat) (e : QueueIterationEvent)
       (s : ControllerState),
      exceptOk (handle_iteration_operation beh now e s).2 = true →
      is_live s X = true →
      is_live (handle_iteration_operation beh now e s).1 X = false →
      ∃ o, e = .completed ⟨X, o⟩) := by
  constructor
  · rw [run_events_live reliableStore es (initialState runs wrid) X hok]
    rw [show is_live (initialState runs wrid) X = false from rfl]
    simp only [started_not_completed]
  · intro beh now e s hok1 hlive hdead
    have h := is_live_step beh now e s X hok1
    rw [hdead, hlive] at h
    cases e with
    | start ev => exfalso; simp [relevantStep] at h
    | next ev => exfalso; simp [relevantStep] at h
    | completed ev =>
      cases ev with
      | mk nid o =>
        by_cases hx : nid = X
        · exact ⟨o, by rw [hx]⟩
        · exfalso; simp [relevantStep, hx] at h

/-- Witness for C1: a concrete two-event trace (start then completed for
"loop1") ends with the entry absent, matching the history predicate. -/
theorem C1_entry_invariant_witness :
    is_live (run_events reliableStore
      [(2, .start ⟨"loop1", 1, none⟩), (5, .completed ⟨"loop1", Json.null⟩)]
      (initialState wRuns "run1")) "loop1" = true ↔
    started_not_completed
      [(2, .start ⟨"loop1", 1, none⟩), (5, .completed ⟨"loop1", Json.null⟩)]
      "loop1" = true :=
  (C1_entry_invariant wRuns "run1"
    [(2, .start ⟨"loop1", 1, none⟩), (5, .completed ⟨"loop1", Json.null⟩)]
    "loop1" rfl).1
